import Mathlib

/-!
Shallow embedding of the batch-allocation / harvest-ledger logic of the
cultivation-dashboard application (batches page, facility page), together
with theorems checking the specification's claims against it.

Modelling conventions:
* JavaScript numbers that hold money, weights or percentages are modelled
  as `ℚ`; light counts and row counters as `ℕ`.
* Calendar dates (the `YYYY-MM-DD` strings stored in the database) are
  modelled as integer day numbers (`ℤ`); the current instant (`new Date()`)
  is a rational number of days (`ℚ`), so that
  `Math.ceil((today.getTime() - start.getTime()) / 86400000)` becomes
  `⌈now - start⌉`.
* A fallible database call is modelled by a boolean outcome flag passed to
  the function; the failure branch follows the source's error handling.
* Nullable columns are `Option` fields; the JavaScript `x || d` idiom on a
  nullable number (where both `null` and `0` are falsy) is `jsOrNat`.
-/

namespace Dashboard

/-- JavaScript `x || d` for a nullable natural number `x`: both `null`
(`none`) and `0` are falsy, so they fall through to the default `d`. -/
def jsOrNat (x : Option Nat) (d : Nat) : Nat :=
  match x with
  | none => d
  | some n => if n = 0 then d else n

/-- Lifecycle status of a batch (`"planned" | "active" | "harvested" | "archived"`). -/
inductive BatchStatus where
  | planned
  | active
  | harvested
  | archived
deriving DecidableEq, Repr

/-- The `Room` row shape used by the batches page (`id, name, area, lights,
status, strain_id`). -/
structure Room where
  id : String
  name : String
  area : Option ℚ
  lights : Option Nat
  status : String
  strain_id : Option String
deriving DecidableEq, Repr

/-- The `Strain` row shape (`id, strain_code, name, abbreviation`; the
display-only `class` column is omitted). -/
structure Strain where
  id : String
  strain_code : Option String
  name : String
  abbreviation : Option String
deriving DecidableEq, Repr

/-- One entry of the in-progress strain list on the add-batch form
(the `BatchStrain` interface). -/
structure BatchStrain where
  strain_id : String
  strain_name : String
  lights_assigned : Nat
  percentage : ℚ
deriving DecidableEq, Repr

/-- A stored batch row (persisted columns plus the `lights_assigned`
aggregate the page attaches at read time; display-only joined fields are
omitted). -/
structure Batch where
  id : String
  room_id : Option String
  strain_id : Option String
  batch_code : Option String
  start_date : ℤ
  expected_harvest : Option ℤ
  status : BatchStatus
  lights_assigned : Option Nat
deriving DecidableEq, Repr

/-- `validateBatchStrains` from the batches page: rejects an empty list;
when the selected room is found, rejects when the total of
`lights_assigned` exceeds `room.lights || 0` and when the total percentage
exceeds `100.1`; otherwise accepts. -/
def validateBatchStrains (batchStrains : List BatchStrain) (rooms : List Room)
    (room_id : String) : Bool :=
  if batchStrains.length = 0 then
    false
  else
    match rooms.find? (fun r => r.id = room_id) with
    | none => true
    | some room =>
      let totalLights := (batchStrains.map (fun s => s.lights_assigned)).sum
      if totalLights > jsOrNat room.lights 0 then
        false
      else
        let totalPercentage := (batchStrains.map (fun s => s.percentage)).sum
        if totalPercentage > (100.1 : ℚ) then false else true

/-- The strain-assignment rows that `handleAddBatch` inserts after
validation succeeds: a direct map of the validated list, with values
carried over unchanged. -/
structure BatchStrainAssignmentInsert where
  batch_id : String
  strain_id : String
  lights_assigned : Nat
  percentage : ℚ
deriving DecidableEq, Repr

/-- The `strainAssignments` array built by `handleAddBatch` from the
validated `batchStrains` list. -/
def strainAssignmentsOf (batchId : String) (batchStrains : List BatchStrain) :
    List BatchStrainAssignmentInsert :=
  batchStrains.map (fun s =>
    { batch_id := batchId
      strain_id := s.strain_id
      lights_assigned := s.lights_assigned
      percentage := s.percentage })

/-- `handleAddStrainToBatch` from the batches page, acting on the
`batchStrains` form state.  The three text inputs are passed as the raw
strings the component reads; the numeric conversions (`parseInt`,
`parseFloat`) are abstracted as function parameters.  The function
returns the new `batchStrains` list: unchanged on any rejected path
(empty input, no light left in the selected room, unknown strain,
strain already added), otherwise with the new entry appended. -/
def handleAddStrainToBatch (parseIntF : String → Nat) (parseFloatF : String → ℚ)
    (rooms : List Room) (strains : List Strain) (room_id : String)
    (selectedStrain lightsForStrain percentageForStrain : String)
    (batchStrains : List BatchStrain) : List BatchStrain :=
  if selectedStrain = "" ∨ lightsForStrain = "" ∨ percentageForStrain = "" then
    batchStrains
  else
    let noLightsLeft : Bool :=
      if room_id = "" then false
      else
        match rooms.find? (fun r => r.id = room_id) with
        | none => false
        | some room =>
          match room.lights with
          | none => false
          | some l =>
            if l = 0 then false
            else
              let usedLights := (batchStrains.map (fun s => s.lights_assigned)).sum
              let remainingLights : ℤ := (l : ℤ) - (usedLights : ℤ)
              decide (remainingLights ≤ 0)
    if noLightsLeft then
      batchStrains
    else
      match strains.find? (fun s => s.id = selectedStrain) with
      | none => batchStrains
      | some strain =>
        if batchStrains.any (fun s => s.strain_id = selectedStrain) then
          batchStrains
        else
          batchStrains ++
            [{ strain_id := selectedStrain
               strain_name := strain.name
               lights_assigned := parseIntF lightsForStrain
               percentage := parseFloatF percentageForStrain }]

/-- `removeStrainFromBatch`: `batchStrains.filter((_, i) => i !== index)`. -/
def removeStrainFromBatch (index : Nat) (batchStrains : List BatchStrain) :
    List BatchStrain :=
  ((batchStrains.enum).filter (fun p => p.1 ≠ index)).map (fun p => p.2)

/-- One user action on the in-progress strain list of the add-batch form. -/
inductive StrainListOp where
  | add (selectedStrain lightsForStrain percentageForStrain : String)
  | remove (index : Nat)

/-- Apply one strain-list action. -/
def applyStrainOp (parseIntF : String → Nat) (parseFloatF : String → ℚ)
    (rooms : List Room) (strains : List Strain) (room_id : String)
    (op : StrainListOp) (batchStrains : List BatchStrain) : List BatchStrain :=
  match op with
  | .add s l p =>
    handleAddStrainToBatch parseIntF parseFloatF rooms strains room_id s l p batchStrains
  | .remove i => removeStrainFromBatch i batchStrains

/-- Apply a sequence of strain-list actions, oldest first. -/
def applyStrainOps (parseIntF : String → Nat) (parseFloatF : String → ℚ)
    (rooms : List Room) (strains : List Strain) (room_id : String)
    (ops : List StrainListOp) (batchStrains : List BatchStrain) : List BatchStrain :=
  ops.foldl
    (fun bs op => applyStrainOp parseIntF parseFloatF rooms strains room_id op bs)
    batchStrains

/-- First run of decimal digits in a character list
(`roomName.match(/(\d+)/)`), or `none` when the string has no digit. -/
def firstDigitRun : List Char → Option String
  | [] => none
  | c :: cs =>
    if c.isDigit then some (String.mk (c :: cs.takeWhile (fun d => d.isDigit)))
    else firstDigitRun cs

/-- JavaScript `s.padStart(2, "0")`. -/
def padStart2 (s : String) : String :=
  if s.length < 2 then String.mk (List.replicate (2 - s.length) '0') ++ s else s

/-- A `batches` row as seen by the batch-code query (`room_id`,
`batch_code`). -/
structure BatchCodeRow where
  room_id : String
  batch_code : String
deriving DecidableEq, Repr

/-- `generateBatchCode`: extract the first digit run of the room name
(default `"1"`), count the existing codes for the room that match
`R{digits}-{year}-%`, and return `R{digits}-{year}-{count+1}` with the
sequence zero-padded to two digits; on a failed lookup (`fetchOk = false`)
fall back to sequence `01`. -/
def generateBatchCode (roomName roomId : String) (year : Nat)
    (table : List BatchCodeRow) (fetchOk : Bool) : String :=
  let roomNumber := (firstDigitRun roomName.data).getD "1"
  let roomCode := "R" ++ roomNumber
  let pattern := roomCode ++ "-" ++ toString year ++ "-"
  if fetchOk then
    let existingBatches :=
      table.filter (fun b =>
        b.room_id = roomId ∧ pattern.data.isPrefixOf b.batch_code.data)
    let batchCount := existingBatches.length + 1
    let batchNumber := padStart2 (toString batchCount)
    roomCode ++ "-" ++ toString year ++ "-" ++ batchNumber
  else
    roomCode ++ "-" ++ toString year ++ "-01"

/-- A `cost_entries` row (`amount, category, date` plus the `batch_id` /
`room_id` columns the query filters on). -/
structure CostEntry where
  batch_id : Option String
  room_id : Option String
  amount : ℚ
  category : String
  date : ℤ
deriving DecidableEq, Repr

/-- The read-only environment of the cost calculation: the loaded `rooms`
list, the `cost_entries` table, whether the cost-entry fetch succeeds, and
the current instant (in days, fractional). -/
structure CostEnv where
  rooms : List Room
  cost_entries : List CostEntry
  costFetchOk : Bool
  now : ℚ
deriving DecidableEq, Repr

/-- `calculateCostToGrow`: days active is the ceiling of the elapsed time
since the start date in days; the matching cost entries are those for the
batch or the room dated within `[startDate, today]`; the result adds the
estimated electricity cost `totalLights * (0.15 * 1 * 18) * daysActive`.
If the cost-entry fetch fails the whole calculation returns `0`. -/
def calculateCostToGrow (batchId roomId : String) (startDate : ℤ)
    (env : CostEnv) : ℚ :=
  let daysActive : ℤ := ⌈env.now - (startDate : ℚ)⌉
  let totalLights : Nat :=
    jsOrNat ((env.rooms.find? (fun r => r.id = roomId)).bind (fun r => r.lights)) 0
  if env.costFetchOk then
    let todayStr : ℤ := ⌊env.now⌋
    let costEntries :=
      env.cost_entries.filter (fun e =>
        (e.batch_id = some batchId ∨ e.room_id = some roomId) ∧
          startDate ≤ e.date ∧ e.date ≤ todayStr)
    let totalCosts := (costEntries.map (fun e => e.amount)).sum
    let electricityCostPerLightPerDay : ℚ := 0.15 * 1 * 18
    totalCosts + (totalLights : ℚ) * electricityCostPerLightPerDay * (daysActive : ℚ)
  else
    0

/-- One per-strain entry of the harvest form (the `HarvestData`
interface): three grade weights and three transient per-grade prices. -/
structure HarvestData where
  strain_id : String
  strain_name : String
  bigs_lbs : ℚ
  smalls_lbs : ℚ
  micros_lbs : ℚ
  bigs_price_per_lb : ℚ
  smalls_price_per_lb : ℚ
  micros_price_per_lb : ℚ
deriving DecidableEq, Repr

/-- The computed harvest summary (the `HarvestSummary` interface). -/
structure HarvestSummary where
  total_harvest_lbs : ℚ
  yield_per_light : ℚ
  total_revenue : ℚ
  revenue_per_light : ℚ
  cost_to_grow : ℚ
  profit_loss : ℚ
  cost_per_lb : ℚ
  net_income_per_lb : ℚ
  net_income_sales_ratio : ℚ
  harvest_data : List HarvestData
deriving DecidableEq, Repr

/-- The first reduce of `calculateHarvestSummary`: total harvested weight,
summed over every strain's three grade buckets. -/
def harvestTotalWeight (harvestData : List HarvestData) : ℚ :=
  (harvestData.map (fun s => s.bigs_lbs + s.smalls_lbs + s.micros_lbs)).sum

/-- The second reduce of `calculateHarvestSummary`: total revenue, each
grade bucket weighted by its transient price. -/
def harvestTotalRevenue (harvestData : List HarvestData) : ℚ :=
  (harvestData.map (fun s =>
    s.bigs_lbs * s.bigs_price_per_lb +
      s.smalls_lbs * s.smalls_price_per_lb +
      s.micros_lbs * s.micros_price_per_lb)).sum

/-- `calculateHarvestSummary`, with `selectedBatchForHarvest` and the cost
environment passed explicitly.  `totalLights` is
`selectedBatchForHarvest?.lights_assigned || 1`; the per-pound and
income-ratio figures are guarded on positive denominators exactly as in
the source. -/
def calculateHarvestSummary (harvestData : List HarvestData)
    (selectedBatchForHarvest : Option Batch) (env : CostEnv) : HarvestSummary :=
  let totalHarvest := harvestTotalWeight harvestData
  let totalRevenue := harvestTotalRevenue harvestData
  let totalLights : Nat :=
    jsOrNat (selectedBatchForHarvest.bind (fun b => b.lights_assigned)) 1
  let yieldPerLight := totalHarvest / (totalLights : ℚ)
  let revenuePerLight := totalRevenue / (totalLights : ℚ)
  let costToGrow :=
    match selectedBatchForHarvest with
    | some b => calculateCostToGrow b.id (b.room_id.getD "") b.start_date env
    | none => 0
  let profitLoss := totalRevenue - costToGrow
  let costPerLb := if totalHarvest > 0 then costToGrow / totalHarvest else 0
  let netIncomePerLb := if totalHarvest > 0 then profitLoss / totalHarvest else 0
  let netIncomeSalesRatio :=
    if totalRevenue > 0 then profitLoss / totalRevenue * 100 else 0
  { total_harvest_lbs := totalHarvest
    yield_per_light := yieldPerLight
    total_revenue := totalRevenue
    revenue_per_light := revenuePerLight
    cost_to_grow := costToGrow
    profit_loss := profitLoss
    cost_per_lb := costPerLb
    net_income_per_lb := netIncomePerLb
    net_income_sales_ratio := netIncomeSalesRatio
    harvest_data := harvestData }

/-- A persisted `harvest_summaries` row. -/
structure HarvestSummaryRow where
  id : Nat
  batch_id : String
  total_harvest_lbs : ℚ
  yield_per_light : ℚ
  total_lights : Nat
  harvest_date : ℤ
deriving DecidableEq, Repr

/-- A persisted `harvest_details` row. -/
structure HarvestDetailRow where
  harvest_summary_id : Nat
  strain_id : String
  strain_name : String
  bigs_lbs : ℚ
  smalls_lbs : ℚ
  micros_lbs : ℚ
deriving DecidableEq, Repr

/-- The slice of the datastore the harvest flow touches.  `nextSummaryId`
models the id generator of the `harvest_summaries` table. -/
structure DB where
  batches : List Batch
  harvest_summaries : List HarvestSummaryRow
  harvest_details : List HarvestDetailRow
  nextSummaryId : Nat
deriving DecidableEq, Repr

/-- Outcome flags for each database call made by `handleSaveHarvestData`,
in source order. -/
structure SaveOutcome where
  fetchOk : Bool
  deleteDetailsOk : Bool
  deleteSummariesOk : Bool
  insertSummaryOk : Bool
  insertDetailsOk : Bool
  updateStatusOk : Bool
deriving DecidableEq, Repr

/-- The detail row `handleSaveHarvestData` builds for one strain (grade
weights persisted, prices not). -/
def harvestDetailOf (sid : Nat) (s : HarvestData) : HarvestDetailRow :=
  { harvest_summary_id := sid
    strain_id := s.strain_id
    strain_name := s.strain_name
    bigs_lbs := s.bigs_lbs
    smalls_lbs := s.smalls_lbs
    micros_lbs := s.micros_lbs }

/-- `handleSaveHarvestData`: compute the summary, delete existing detail
rows (by the ids of the batch's existing summaries) and then existing
summary rows for the batch — errors on the fetch and the two deletes are
logged and the flow continues — then insert the new summary row, then the
new detail rows, then update the batch status to `harvested`.  A failed
insert or status update aborts the remaining steps. -/
def handleSaveHarvestData (batch : Batch) (harvestData : List HarvestData)
    (env : CostEnv) (o : SaveOutcome) (db : DB) : DB :=
  let summary := calculateHarvestSummary harvestData (some batch) env
  let existingSummaries : Option (List Nat) :=
    if o.fetchOk then
      some ((db.harvest_summaries.filter (fun s => s.batch_id = batch.id)).map
        (fun s => s.id))
    else none
  let db1 :=
    match existingSummaries with
    | some summaryIds =>
      if summaryIds.length > 0 ∧ o.deleteDetailsOk = true then
        { db with
            harvest_details :=
              db.harvest_details.filter (fun d => d.harvest_summary_id ∉ summaryIds) }
      else db
    | none => db
  let db2 :=
    if o.deleteSummariesOk then
      { db1 with
          harvest_summaries :=
            db1.harvest_summaries.filter (fun s => ¬s.batch_id = batch.id) }
    else db1
  if o.insertSummaryOk = false then
    db2
  else
    let sid := db2.nextSummaryId
    let row : HarvestSummaryRow :=
      { id := sid
        batch_id := batch.id
        total_harvest_lbs := summary.total_harvest_lbs
        yield_per_light := summary.yield_per_light
        total_lights := jsOrNat batch.lights_assigned 0
        harvest_date := ⌊env.now⌋ }
    let db3 :=
      { db2 with
          harvest_summaries := db2.harvest_summaries ++ [row]
          nextSummaryId := sid + 1 }
    if o.insertDetailsOk = false then
      db3
    else
      let db4 :=
        { db3 with
            harvest_details :=
              db3.harvest_details ++ harvestData.map (harvestDetailOf sid) }
      if o.updateStatusOk = false then
        db4
      else
        { db4 with
            batches :=
              db4.batches.map (fun b =>
                if b.id = batch.id then { b with status := .harvested } else b) }

/-- `handleUpdateBatchStatus`: selecting `harvested` for a batch present
in the loaded list only opens the harvest modal (second component `true`)
and issues no write; any other selection issues a direct status update
(`updateOk` models its success). -/
def handleUpdateBatchStatus (batches : List Batch) (batchId : String)
    (newStatus : BatchStatus) (updateOk : Bool) (db : DB) : DB × Bool :=
  if newStatus = .harvested ∧ (batches.find? (fun b => b.id = batchId)).isSome then
    (db, true)
  else if updateOk then
    ({ db with
        batches :=
          db.batches.map (fun b =>
            if b.id = batchId then { b with status := newStatus } else b) },
      false)
  else
    (db, false)

/-- A batch row as joined into a room by the facility page's `loadRooms`
query (`batch_code, status, start_date, expected_harvest`). -/
structure JoinedBatch where
  batch_code : Option String
  status : BatchStatus
  start_date : ℤ
  expected_harvest : Option ℤ
deriving DecidableEq, Repr

/-- A `rooms` row with its joined batches, as fetched by `loadRooms`. -/
structure RawRoom where
  id : String
  name : String
  area : Option ℚ
  lights : Option Nat
  status : String
  strain_id : Option String
  batches : List JoinedBatch
deriving DecidableEq, Repr

/-- A room after the processing step of `loadRooms` attached the
current-batch fields. -/
structure ProcessedRoom where
  id : String
  name : String
  area : Option ℚ
  lights : Option Nat
  status : String
  strain_id : Option String
  current_batch : Option String
  has_current_batch : Bool
  batch_start_date : Option ℤ
  batch_end_date : Option ℤ
deriving DecidableEq, Repr

/-- The per-room body of the processing step of `loadRooms`: find the
first joined batch with status `active` and record it as the room's
current batch (`has_current_batch = !!activeBatch`). -/
def processRoom (room : RawRoom) : ProcessedRoom :=
  let activeBatch := room.batches.find? (fun b => b.status = .active)
  { id := room.id
    name := room.name
    area := room.area
    lights := room.lights
    status := room.status
    strain_id := room.strain_id
    current_batch := activeBatch.bind (fun b => b.batch_code)
    has_current_batch := activeBatch.isSome
    batch_start_date := activeBatch.map (fun b => b.start_date)
    batch_end_date := activeBatch.bind (fun b => b.expected_harvest) }

/-- The processing step of `loadRooms` over the fetched rooms. -/
def processRooms (data : List RawRoom) : List ProcessedRoom :=
  data.map processRoom

/-- `handleDeleteRoom` on the facility page: look the room up in the
loaded list and issue the delete only when the room is found and
`has_current_batch` is false.  The result is the rooms table after the
action together with whether a delete was issued (`deleteOk` models the
success of the issued delete). -/
def handleDeleteRoom (rooms : List ProcessedRoom) (id : String)
    (deleteOk : Bool) (roomsTable : List RawRoom) : List RawRoom × Bool :=
  match rooms.find? (fun r => r.id = id) with
  | none => (roomsTable, false)
  | some room =>
    if room.has_current_batch = false then
      if deleteOk then (roomsTable.filter (fun r => ¬r.id = id), true)
      else (roomsTable, true)
    else (roomsTable, false)

/-- Predicate of the id generator model: ids already stored in the harvest
tables stay below the id counter. -/
def DBWellFormed (db : DB) : Prop :=
  (∀ s ∈ db.harvest_summaries, s.id < db.nextSummaryId) ∧
  (∀ d ∈ db.harvest_details, d.harvest_summary_id < db.nextSummaryId)

/-- The summary row `handleSaveHarvestData` inserts for a batch, with the
freshly generated id `sid`. -/
def newHarvestSummaryRow (batch : Batch) (harvestData : List HarvestData)
    (env : CostEnv) (sid : Nat) : HarvestSummaryRow :=
  { id := sid
    batch_id := batch.id
    total_harvest_lbs := (calculateHarvestSummary harvestData (some batch) env).total_harvest_lbs
    yield_per_light := (calculateHarvestSummary harvestData (some batch) env).yield_per_light
    total_lights := jsOrNat batch.lights_assigned 0
    harvest_date := ⌊env.now⌋ }

/-! ## Helper lemmas -/

/-- With default `0`, the JavaScript `||` on a non-null number is the
identity (`0 || 0` is still `0`). -/
theorem jsOrNat_some_zero (n : Nat) : jsOrNat (some n) 0 = n := by
  cases n <;> rfl

/-- Dropping the entry at one position of an indexed list leaves a
sublist, for any starting index of the numbering. -/
theorem removeStrain_enumFrom_sublist (i : Nat) (l : List BatchStrain) :
    ∀ (n : Nat),
      (((l.enumFrom n).filter (fun p => p.1 ≠ i)).map (fun p => p.2)).Sublist l := by
  induction l with
  | nil => intro n; simp
  | cons c cs ih =>
    intro n
    show ((((n, c) :: cs.enumFrom (n + 1)).filter (fun p => p.1 ≠ i)).map
      (fun p => p.2)).Sublist (c :: cs)
    by_cases h : n = i
    · rw [List.filter_cons_of_neg (by simp [h])]
      exact (ih (n + 1)).cons c
    · rw [List.filter_cons_of_pos (by simp [h])]
      rw [List.map_cons]
      exact (ih (n + 1)).cons₂ c

/-- Removing one strain from the form list yields a sublist. -/
theorem removeStrainFromBatch_sublist (i : Nat) (l : List BatchStrain) :
    (removeStrainFromBatch i l).Sublist l :=
  removeStrain_enumFrom_sublist i l 0

/-- One strain-list action preserves distinctness of the strain ids:
`remove` keeps a sublist, and `add` appends only after its duplicate
check failed to find the strain. -/
theorem applyStrainOp_nodup (parseIntF : String → Nat) (parseFloatF : String → ℚ)
    (rooms : List Room) (strains : List Strain) (room_id : String)
    (op : StrainListOp) (l : List BatchStrain)
    (h : (l.map (fun s => s.strain_id)).Nodup) :
    ((applyStrainOp parseIntF parseFloatF rooms strains room_id op l).map
      (fun s => s.strain_id)).Nodup := by
  cases op with
  | remove i =>
    exact ((removeStrainFromBatch_sublist i l).map (fun s => s.strain_id)).nodup h
  | add sel lg pg =>
    simp only [applyStrainOp, handleAddStrainToBatch]
    repeat' split
    any_goals exact h
    all_goals
      rename_i hdup
      rw [List.map_append, List.nodup_append]
      refine ⟨h, List.nodup_singleton _, ?_⟩
      simp only [List.map_cons, List.map_nil]
      rw [List.disjoint_singleton]
      intro hmem
      rcases List.mem_map.mp hmem with ⟨x, hx, hid⟩
      exact hdup (List.any_eq_true.mpr ⟨x, hx, by simp [hid]⟩)

/-- On the fully successful path, the summary table after
`handleSaveHarvestData` is the old table minus the batch's rows plus the
one fresh row. -/
theorem handleSaveHarvestData_summaries (batch : Batch)
    (harvestData : List HarvestData) (env : CostEnv) (o : SaveOutcome) (db : DB)
    (hf : o.fetchOk = true) (hdd : o.deleteDetailsOk = true)
    (hds : o.deleteSummariesOk = true) (his : o.insertSummaryOk = true)
    (hid : o.insertDetailsOk = true) (hus : o.updateStatusOk = true) :
    (handleSaveHarvestData batch harvestData env o db).harvest_summaries =
      db.harvest_summaries.filter (fun s => ¬s.batch_id = batch.id) ++
        [newHarvestSummaryRow batch harvestData env db.nextSummaryId] := by
  simp [handleSaveHarvestData, newHarvestSummaryRow, hf, hdd, hds, his, hid, hus,
    apply_ite]

/-- On the fully successful path, the id counter advances by one. -/
theorem handleSaveHarvestData_nextId (batch : Batch)
    (harvestData : List HarvestData) (env : CostEnv) (o : SaveOutcome) (db : DB)
    (hf : o.fetchOk = true) (hdd : o.deleteDetailsOk = true)
    (hds : o.deleteSummariesOk = true) (his : o.insertSummaryOk = true)
    (hid : o.insertDetailsOk = true) (hus : o.updateStatusOk = true) :
    (handleSaveHarvestData batch harvestData env o db).nextSummaryId =
      db.nextSummaryId + 1 := by
  simp [handleSaveHarvestData, hf, hdd, hds, his, hid, hus, apply_ite]

/-- On the fully successful path, the detail rows linked to the fresh
summary id are exactly the rows built from the entered harvest data. -/
theorem handleSaveHarvestData_details_filter (batch : Batch)
    (harvestData : List HarvestData) (env : CostEnv) (o : SaveOutcome) (db : DB)
    (hwfd : ∀ d ∈ db.harvest_details, d.harvest_summary_id < db.nextSummaryId)
    (hf : o.fetchOk = true) (hdd : o.deleteDetailsOk = true)
    (hds : o.deleteSummariesOk = true) (his : o.insertSummaryOk = true)
    (hid : o.insertDetailsOk = true) (hus : o.updateStatusOk = true) :
    (handleSaveHarvestData batch harvestData env o db).harvest_details.filter
        (fun d => d.harvest_summary_id = db.nextSummaryId) =
      harvestData.map (harvestDetailOf db.nextSummaryId) := by
  have hdetails : (handleSaveHarvestData batch harvestData env o db).harvest_details =
      (if ((db.harvest_summaries.filter (fun s => s.batch_id = batch.id)).map
            (fun s => s.id)).length > 0 then
        db.harvest_details.filter (fun d =>
          d.harvest_summary_id ∉
            (db.harvest_summaries.filter (fun s => s.batch_id = batch.id)).map
              (fun s => s.id))
      else db.harvest_details) ++ harvestData.map (harvestDetailOf db.nextSummaryId) := by
    simp [handleSaveHarvestData, harvestDetailOf, hf, hdd, hds, his, hid, hus, apply_ite]
  rw [hdetails, List.filter_append]
  have hold : (if ((db.harvest_summaries.filter (fun s => s.batch_id = batch.id)).map
          (fun s => s.id)).length > 0 then
        db.harvest_details.filter (fun d =>
          d.harvest_summary_id ∉
            (db.harvest_summaries.filter (fun s => s.batch_id = batch.id)).map
              (fun s => s.id))
      else db.harvest_details).filter
        (fun d => d.harvest_summary_id = db.nextSummaryId) = [] := by
    rw [List.filter_eq_nil_iff]
    intro d hd
    have hdb : d ∈ db.harvest_details := by
      split at hd
      · exact (List.mem_filter.mp hd).1
      · exact hd
    have hlt := hwfd d hdb
    simp only [decide_eq_true_eq]
    omega
  rw [hold, List.nil_append]
  rw [List.filter_eq_self]
  intro a ha
  rcases List.mem_map.mp ha with ⟨x, hx, rfl⟩
  simp [harvestDetailOf]

/-- A fully successful save keeps the id-counter invariant. -/
theorem handleSaveHarvestData_wf (batch : Batch)
    (harvestData : List HarvestData) (env : CostEnv) (o : SaveOutcome) (db : DB)
    (hwf : DBWellFormed db)
    (hf : o.fetchOk = true) (hdd : o.deleteDetailsOk = true)
    (hds : o.deleteSummariesOk = true) (his : o.insertSummaryOk = true)
    (hid : o.insertDetailsOk = true) (hus : o.updateStatusOk = true) :
    DBWellFormed (handleSaveHarvestData batch harvestData env o db) := by
  obtain ⟨hws, hwd⟩ := hwf
  constructor
  · rw [handleSaveHarvestData_summaries batch harvestData env o db hf hdd hds his hid hus,
      handleSaveHarvestData_nextId batch harvestData env o db hf hdd hds his hid hus]
    intro s hs
    rcases List.mem_append.mp hs with h | h
    · have := hws s (List.mem_filter.mp h).1
      omega
    · rw [List.mem_singleton.mp h]
      simp [newHarvestSummaryRow]
  · have hdetails : (handleSaveHarvestData batch harvestData env o db).harvest_details =
        (if ((db.harvest_summaries.filter (fun s => s.batch_id = batch.id)).map
              (fun s => s.id)).length > 0 then
          db.harvest_details.filter (fun d =>
            d.harvest_summary_id ∉
              (db.harvest_summaries.filter (fun s => s.batch_id = batch.id)).map
                (fun s => s.id))
        else db.harvest_details) ++ harvestData.map (harvestDetailOf db.nextSummaryId) := by
      simp [handleSaveHarvestData, harvestDetailOf, hf, hdd, hds, his, hid, hus, apply_ite]
    rw [hdetails,
      handleSaveHarvestData_nextId batch harvestData env o db hf hdd hds his hid hus]
    intro d hd
    rcases List.mem_append.mp hd with h | h
    · have hdb : d ∈ db.harvest_details := by
        split at h
        · exact (List.mem_filter.mp h).1
        · exact h
      have := hwd d hdb
      omega
    · rcases List.mem_map.mp h with ⟨x, hx, rfl⟩
      simp [harvestDetailOf]

/-- After one fully successful save, the batch has exactly the one fresh
summary row. -/
theorem handleSaveHarvestData_one_summary (batch : Batch)
    (harvestData : List HarvestData) (env : CostEnv) (o : SaveOutcome) (db : DB)
    (hf : o.fetchOk = true) (hdd : o.deleteDetailsOk = true)
    (hds : o.deleteSummariesOk = true) (his : o.insertSummaryOk = true)
    (hid : o.insertDetailsOk = true) (hus : o.updateStatusOk = true) :
    (handleSaveHarvestData batch harvestData env o db).harvest_summaries.filter
        (fun s => s.batch_id = batch.id) =
      [newHarvestSummaryRow batch harvestData env db.nextSummaryId] := by
  rw [handleSaveHarvestData_summaries batch harvestData env o db hf hdd hds his hid hus,
    List.filter_append]
  have h1 : (db.harvest_summaries.filter (fun s => ¬s.batch_id = batch.id)).filter
      (fun s => s.batch_id = batch.id) = [] := by
    rw [List.filter_eq_nil_iff]
    intro s hs
    have h := (List.mem_filter.mp hs).2
    simp only [decide_not, Bool.not_eq_true', decide_eq_false_iff_not] at h
    simp [h]
  rw [h1, List.nil_append]
  simp [newHarvestSummaryRow]

/-- In a list of harvest entries with pairwise distinct strain ids, the
entries carrying one present strain id form a one-element sublist. -/
theorem filter_strainId_length_one (v : String) :
    ∀ (l : List HarvestData), (l.map (fun s => s.strain_id)).Nodup →
      ∀ x ∈ l, x.strain_id = v →
        (l.filter (fun s => s.strain_id = v)).length = 1 := by
  intro l
  induction l with
  | nil => intro _ x hx; cases hx
  | cons a t ih =>
    intro hnodup x hx hv
    rw [List.map_cons, List.nodup_cons] at hnodup
    obtain ⟨hna, hnt⟩ := hnodup
    rcases List.mem_cons.mp hx with rfl | hxt
    · rw [List.filter_cons_of_pos (by simp [hv])]
      have ht : t.filter (fun s => decide (s.strain_id = v)) = [] := by
        rw [List.filter_eq_nil_iff]
        intro b hb hbv
        simp only [decide_eq_true_eq] at hbv
        exact hna (List.mem_map.mpr ⟨b, hb, by rw [hbv, hv]⟩)
      rw [ht]
      rfl
    · have hne : ¬a.strain_id = v := by
        intro ha
        exact hna (List.mem_map.mpr ⟨x, hxt, by rw [hv, ha]⟩)
      rw [List.filter_cons_of_neg (by simp [hne])]
      exact ih hnt x hxt hv

/-! ## Claim theorems -/

/-- Claim C1, counterexample: the claim states the validator accepts only
lists in which no strain identifier repeats, but `validateBatchStrains`
performs no duplicate check — it accepts a two-entry list in which the
same strain id appears twice (capacity 10, total lights 2, total
percentage 100). -/
theorem validateBatchStrains_accepts_duplicate_strains :
    validateBatchStrains [⟨"s1", "A", 1, 50⟩, ⟨"s1", "A", 1, 50⟩]
        [⟨"r1", "Room 1", none, some 10, "active", none⟩] "r1" = true ∧
    ¬(([⟨"s1", "A", 1, 50⟩, ⟨"s1", "A", 1, 50⟩] : List BatchStrain).map
        (fun s => s.strain_id)).Nodup := by
  constructor
  · norm_num [validateBatchStrains, jsOrNat]
  · decide

/-- Claim C1 (amended): for a selected room found in the loaded list with
known light capacity `C`, `validateBatchStrains` accepts a proposed list
iff the list is non-empty, the sum of `lights_assigned` is at most `C`,
and the sum of `percentage` is at most `100.1`; the validator itself
checks no strain-identifier repetition (that is prevented at add time,
claim C10).  The validation is a pure predicate, and on acceptance the
assignment rows built by `handleAddBatch` carry each entry's
`percentage` and `lights_assigned` unchanged — no re-normalization. -/
theorem validateBatchStrains_accepts_iff (batchStrains : List BatchStrain)
    (rooms : List Room) (room_id : String) (room : Room) (C : Nat) (batchId : String)
    (hfind : rooms.find? (fun r => r.id = room_id) = some room)
    (hC : room.lights = some C) :
    (validateBatchStrains batchStrains rooms room_id = true ↔
      (batchStrains ≠ [] ∧
        (batchStrains.map (fun s => s.lights_assigned)).sum ≤ C ∧
        (batchStrains.map (fun s => s.percentage)).sum ≤ (100.1 : ℚ))) ∧
    (strainAssignmentsOf batchId batchStrains).map (fun a => a.percentage) =
      batchStrains.map (fun s => s.percentage) ∧
    (strainAssignmentsOf batchId batchStrains).map (fun a => a.lights_assigned) =
      batchStrains.map (fun s => s.lights_assigned) := by
  refine ⟨?_, ?_, ?_⟩
  · simp only [validateBatchStrains, hfind, hC, jsOrNat_some_zero]
    split_ifs with h1 h2 h3
    · simp [List.length_eq_zero.mp h1]
    · simp only [false_iff]
      rintro ⟨-, hle, -⟩
      omega
    · simp only [false_iff]
      rintro ⟨-, -, hle⟩
      exact absurd h3 (not_lt.mpr hle)
    · simp only [true_iff]
      exact ⟨fun hnil => h1 (by simp [hnil]), Nat.not_lt.mp h2, not_lt.mp h3⟩
  · simp [strainAssignmentsOf]
  · simp [strainAssignmentsOf]

/-- Claim C1, witness: a one-strain list within capacity and percentage
bounds is accepted. -/
theorem validateBatchStrains_accepts_iff_witness :
    validateBatchStrains [⟨"s1", "A", 2, 50⟩]
        [⟨"r1", "Room 1", none, some 10, "active", none⟩] "r1" = true :=
  ((validateBatchStrains_accepts_iff [⟨"s1", "A", 2, 50⟩]
      [⟨"r1", "Room 1", none, some 10, "active", none⟩] "r1"
      ⟨"r1", "Room 1", none, some 10, "active", none⟩ 10 "b1" rfl rfl).1).mpr
    ⟨by decide, by decide, by norm_num⟩

/-- Claim C2: selecting `harvested` for a batch present in the loaded
list opens the harvest modal and issues no status write; selecting any
other status issues a direct field update regardless of the previous
status; and `handleSaveHarvestData` leaves the stored batches untouched
when the summary insert or the detail insert fails, while on full
success it sets the batch's stored status to `harvested`. -/
theorem harvested_status_gated (batches : List Batch) (batchId : String)
    (newStatus : BatchStatus) (updateOk : Bool) (db : DB) (batch : Batch)
    (harvestData : List HarvestData) (env : CostEnv) (o : SaveOutcome) :
    ((newStatus = .harvested ∧ (batches.find? (fun b => b.id = batchId)).isSome) →
      handleUpdateBatchStatus batches batchId newStatus updateOk db = (db, true)) ∧
    (¬newStatus = .harvested → updateOk = true →
      handleUpdateBatchStatus batches batchId newStatus updateOk db =
        ({ db with
            batches := db.batches.map (fun b =>
              if b.id = batchId then { b with status := newStatus } else b) },
          false)) ∧
    ((o.insertSummaryOk = false ∨ o.insertDetailsOk = false) →
      (handleSaveHarvestData batch harvestData env o db).batches = db.batches) ∧
    (o.insertSummaryOk = true → o.insertDetailsOk = true → o.updateStatusOk = true →
      (handleSaveHarvestData batch harvestData env o db).batches =
        db.batches.map (fun b =>
          if b.id = batch.id then { b with status := .harvested } else b)) := by
  refine ⟨fun hg => ?_, fun hn hup => ?_, fun habort => ?_, fun h1 h2 h3 => ?_⟩
  · simp [handleUpdateBatchStatus, hg]
  · simp [handleUpdateBatchStatus, hn, hup]
  · rcases habort with hS | hD
    · simp only [handleSaveHarvestData, hS]
      repeat' split
      all_goals first | rfl | simp_all
    · simp only [handleSaveHarvestData, hD]
      repeat' split
      all_goals first | rfl | simp_all
  · simp only [handleSaveHarvestData, h1, h2, h3]
    repeat' split
    all_goals first | rfl | simp_all

/-- Claim C2, witness: on a one-batch store, selecting `harvested` leaves
the store untouched; selecting `active` updates the field; a save whose
summary insert fails leaves the status `planned`; a fully successful
save makes it `harvested`. -/
theorem harvested_status_gated_witness :
    handleUpdateBatchStatus [⟨"b1", none, none, none, 0, none, .planned, none⟩]
        "b1" .harvested true ⟨[⟨"b1", none, none, none, 0, none, .planned, none⟩], [], [], 0⟩ =
      (⟨[⟨"b1", none, none, none, 0, none, .planned, none⟩], [], [], 0⟩, true) ∧
    handleUpdateBatchStatus [⟨"b1", none, none, none, 0, none, .planned, none⟩]
        "b1" .active true ⟨[⟨"b1", none, none, none, 0, none, .planned, none⟩], [], [], 0⟩ =
      (⟨[⟨"b1", none, none, none, 0, none, .active, none⟩], [], [], 0⟩, false) ∧
    (handleSaveHarvestData ⟨"b1", none, none, none, 0, none, .planned, none⟩ []
        ⟨[], [], true, 0⟩ ⟨true, true, true, false, true, true⟩
        ⟨[⟨"b1", none, none, none, 0, none, .planned, none⟩], [], [], 0⟩).batches =
      [⟨"b1", none, none, none, 0, none, .planned, none⟩] ∧
    (handleSaveHarvestData ⟨"b1", none, none, none, 0, none, .planned, none⟩ []
        ⟨[], [], true, 0⟩ ⟨true, true, true, true, true, true⟩
        ⟨[⟨"b1", none, none, none, 0, none, .planned, none⟩], [], [], 0⟩).batches =
      [⟨"b1", none, none, none, 0, none, .harvested, none⟩] := by
  refine ⟨?_, ?_, ?_, ?_⟩
  · exact (harvested_status_gated [⟨"b1", none, none, none, 0, none, .planned, none⟩]
      "b1" .harvested true ⟨[⟨"b1", none, none, none, 0, none, .planned, none⟩], [], [], 0⟩
      ⟨"b1", none, none, none, 0, none, .planned, none⟩ [] ⟨[], [], true, 0⟩
      ⟨true, true, true, true, true, true⟩).1 ⟨rfl, rfl⟩
  · have h := (harvested_status_gated [⟨"b1", none, none, none, 0, none, .planned, none⟩]
      "b1" .active true ⟨[⟨"b1", none, none, none, 0, none, .planned, none⟩], [], [], 0⟩
      ⟨"b1", none, none, none, 0, none, .planned, none⟩ [] ⟨[], [], true, 0⟩
      ⟨true, true, true, true, true, true⟩).2.1 (by decide) rfl
    rw [h]
    rfl
  · exact (harvested_status_gated [] "b1" .active true
      ⟨[⟨"b1", none, none, none, 0, none, .planned, none⟩], [], [], 0⟩
      ⟨"b1", none, none, none, 0, none, .planned, none⟩ [] ⟨[], [], true, 0⟩
      ⟨true, true, true, false, true, true⟩).2.2.1 (Or.inl rfl)
  · have h := (harvested_status_gated [] "b1" .active true
      ⟨[⟨"b1", none, none, none, 0, none, .planned, none⟩], [], [], 0⟩
      ⟨"b1", none, none, none, 0, none, .planned, none⟩ [] ⟨[], [], true, 0⟩
      ⟨true, true, true, true, true, true⟩).2.2.2 rfl rfl rfl
    rw [h]
    rfl

/-- Claim C3: re-saving harvest data works replace-on-save.  Starting
from any store whose stored ids respect the id counter, two consecutive
fully successful saves for the same batch leave exactly one harvest
summary row for that batch, and — when the entered per-strain data has
pairwise distinct strain ids — exactly one detail row per strain linked
to that summary. -/
theorem harvest_resave_replaces (batch : Batch) (harvestData : List HarvestData)
    (env : CostEnv) (o : SaveOutcome) (db : DB)
    (hwf : DBWellFormed db)
    (hf : o.fetchOk = true) (hdd : o.deleteDetailsOk = true)
    (hds : o.deleteSummariesOk = true) (his : o.insertSummaryOk = true)
    (hid : o.insertDetailsOk = true) (hus : o.updateStatusOk = true)
    (hnodup : (harvestData.map (fun s => s.strain_id)).Nodup) :
    ((handleSaveHarvestData batch harvestData env o
        (handleSaveHarvestData batch harvestData env o db)).harvest_summaries.filter
          (fun s => s.batch_id = batch.id)).length = 1 ∧
    (∀ s ∈ (handleSaveHarvestData batch harvestData env o
        (handleSaveHarvestData batch harvestData env o db)).harvest_summaries.filter
          (fun s => s.batch_id = batch.id),
      ∀ x ∈ harvestData,
        ((handleSaveHarvestData batch harvestData env o
            (handleSaveHarvestData batch harvestData env o db)).harvest_details.filter
              (fun d => d.harvest_summary_id = s.id ∧
                d.strain_id = x.strain_id)).length = 1) := by
  set db1 := handleSaveHarvestData batch harvestData env o db with hdb1
  have hwf1 : DBWellFormed db1 :=
    handleSaveHarvestData_wf batch harvestData env o db hwf hf hdd hds his hid hus
  have hsum :=
    handleSaveHarvestData_one_summary batch harvestData env o db1 hf hdd hds his hid hus
  constructor
  · rw [hsum]
    rfl
  · intro s hs x hx
    rw [hsum] at hs
    have hseq := List.mem_singleton.mp hs
    have hsid : s.id = db1.nextSummaryId := by rw [hseq]; rfl
    have hdet := handleSaveHarvestData_details_filter batch harvestData env o db1
      hwf1.2 hf hdd hds his hid hus
    have hpred : (fun d : HarvestDetailRow =>
        decide (d.harvest_summary_id = s.id ∧ d.strain_id = x.strain_id)) =
        (fun d : HarvestDetailRow =>
          decide (d.strain_id = x.strain_id) && decide (d.harvest_summary_id = s.id)) := by
      funext d
      rw [Bool.decide_and, Bool.and_comm]
    show ((handleSaveHarvestData batch harvestData env o db1).harvest_details.filter
      (fun d => d.harvest_summary_id = s.id ∧ d.strain_id = x.strain_id)).length = 1
    rw [show (fun d : HarvestDetailRow =>
        decide (d.harvest_summary_id = s.id ∧ d.strain_id = x.strain_id)) =
        (fun d : HarvestDetailRow =>
          decide (d.strain_id = x.strain_id) && decide (d.harvest_summary_id = s.id))
      from hpred]
    rw [← List.filter_filter, hsid, hdet, List.filter_map, List.length_map]
    exact filter_strainId_length_one x.strain_id harvestData hnodup x hx rfl

/-- Claim C3, witness: starting from the empty store, saving a one-strain
harvest twice for batch `b1` leaves one summary row for `b1` and one
detail row for strain `s1` under the second summary id `1`. -/
theorem harvest_resave_replaces_witness :
    ((handleSaveHarvestData ⟨"b1", none, none, none, 0, none, .active, some 4⟩
        [⟨"s1", "Strain 1", 10, 5, 2, 20, 10, 5⟩] ⟨[], [], true, 0⟩
        ⟨true, true, true, true, true, true⟩
        (handleSaveHarvestData ⟨"b1", none, none, none, 0, none, .active, some 4⟩
          [⟨"s1", "Strain 1", 10, 5, 2, 20, 10, 5⟩] ⟨[], [], true, 0⟩
          ⟨true, true, true, true, true, true⟩
          ⟨[], [], [], 0⟩)).harvest_summaries.filter
            (fun s => s.batch_id = "b1")).length = 1 ∧
    ((handleSaveHarvestData ⟨"b1", none, none, none, 0, none, .active, some 4⟩
        [⟨"s1", "Strain 1", 10, 5, 2, 20, 10, 5⟩] ⟨[], [], true, 0⟩
        ⟨true, true, true, true, true, true⟩
        (handleSaveHarvestData ⟨"b1", none, none, none, 0, none, .active, some 4⟩
          [⟨"s1", "Strain 1", 10, 5, 2, 20, 10, 5⟩] ⟨[], [], true, 0⟩
          ⟨true, true, true, true, true, true⟩
          ⟨[], [], [], 0⟩)).harvest_details.filter
            (fun d => d.harvest_summary_id = 1 ∧ d.strain_id = "s1")).length = 1 := by
  have h := harvest_resave_replaces ⟨"b1", none, none, none, 0, none, .active, some 4⟩
    [⟨"s1", "Strain 1", 10, 5, 2, 20, 10, 5⟩] ⟨[], [], true, 0⟩
    ⟨true, true, true, true, true, true⟩ ⟨[], [], [], 0⟩
    ⟨fun s hs => absurd hs (List.not_mem_nil s), fun d hd => absurd hd (List.not_mem_nil d)⟩
    rfl rfl rfl rfl rfl rfl (by simp)
  refine ⟨h.1, ?_⟩
  have hnext : (handleSaveHarvestData ⟨"b1", none, none, none, 0, none, .active, some 4⟩
      [⟨"s1", "Strain 1", 10, 5, 2, 20, 10, 5⟩] ⟨[], [], true, 0⟩
      ⟨true, true, true, true, true, true⟩ ⟨[], [], [], 0⟩).nextSummaryId = 1 :=
    handleSaveHarvestData_nextId ⟨"b1", none, none, none, 0, none, .active, some 4⟩
      [⟨"s1", "Strain 1", 10, 5, 2, 20, 10, 5⟩] ⟨[], [], true, 0⟩
      ⟨true, true, true, true, true, true⟩ ⟨[], [], [], 0⟩ rfl rfl rfl rfl rfl rfl
  have hsum := handleSaveHarvestData_one_summary
    ⟨"b1", none, none, none, 0, none, .active, some 4⟩
    [⟨"s1", "Strain 1", 10, 5, 2, 20, 10, 5⟩] ⟨[], [], true, 0⟩
    ⟨true, true, true, true, true, true⟩
    (handleSaveHarvestData ⟨"b1", none, none, none, 0, none, .active, some 4⟩
      [⟨"s1", "Strain 1", 10, 5, 2, 20, 10, 5⟩] ⟨[], [], true, 0⟩
      ⟨true, true, true, true, true, true⟩ ⟨[], [], [], 0⟩) rfl rfl rfl rfl rfl rfl
  rw [hnext] at hsum
  have hs : newHarvestSummaryRow ⟨"b1", none, none, none, 0, none, .active, some 4⟩
      [⟨"s1", "Strain 1", 10, 5, 2, 20, 10, 5⟩] ⟨[], [], true, 0⟩ 1 ∈
      (handleSaveHarvestData ⟨"b1", none, none, none, 0, none, .active, some 4⟩
        [⟨"s1", "Strain 1", 10, 5, 2, 20, 10, 5⟩] ⟨[], [], true, 0⟩
        ⟨true, true, true, true, true, true⟩
        (handleSaveHarvestData ⟨"b1", none, none, none, 0, none, .active, some 4⟩
          [⟨"s1", "Strain 1", 10, 5, 2, 20, 10, 5⟩] ⟨[], [], true, 0⟩
          ⟨true, true, true, true, true, true⟩
          ⟨[], [], [], 0⟩)).harvest_summaries.filter (fun s => s.batch_id = "b1") := by
    rw [hsum]
    exact List.mem_singleton.mpr rfl
  exact h.2 (newHarvestSummaryRow ⟨"b1", none, none, none, 0, none, .active, some 4⟩
      [⟨"s1", "Strain 1", 10, 5, 2, 20, 10, 5⟩] ⟨[], [], true, 0⟩ 1) hs
    ⟨"s1", "Strain 1", 10, 5, 2, 20, 10, 5⟩ (List.mem_singleton.mpr rfl)

/-- Claim C4: for a room with `N` lights, `calculateCostToGrow` returns
the sum of the cost entries matching the batch or the room and dated
within the active period, plus `N × 2.70 × D` with
`D = ⌈today − start⌉` days; with no recorded cost entries the result is
exactly the electricity estimate, and a failed cost-entry fetch makes
the whole calculation return `0`. -/
theorem calculateCostToGrow_formula (batchId roomId : String) (startDate : ℤ)
    (env : CostEnv) (room : Room) (N : Nat)
    (hfind : env.rooms.find? (fun r => r.id = roomId) = some room)
    (hN : room.lights = some N) :
    (env.costFetchOk = true →
      calculateCostToGrow batchId roomId startDate env =
        ((env.cost_entries.filter (fun e =>
            (e.batch_id = some batchId ∨ e.room_id = some roomId) ∧
              startDate ≤ e.date ∧ e.date ≤ ⌊env.now⌋)).map (fun e => e.amount)).sum
          + (N : ℚ) * 2.70 * ((⌈env.now - (startDate : ℚ)⌉ : ℤ) : ℚ)) ∧
    (env.costFetchOk = true →
      env.cost_entries.filter (fun e =>
          (e.batch_id = some batchId ∨ e.room_id = some roomId) ∧
            startDate ≤ e.date ∧ e.date ≤ ⌊env.now⌋) = [] →
      calculateCostToGrow batchId roomId startDate env =
        (N : ℚ) * 2.70 * ((⌈env.now - (startDate : ℚ)⌉ : ℤ) : ℚ)) ∧
    (env.costFetchOk = false → calculateCostToGrow batchId roomId startDate env = 0) := by
  have hL : jsOrNat ((env.rooms.find? (fun r => r.id = roomId)).bind (fun r => r.lights)) 0 = N := by
    rw [hfind]
    show jsOrNat room.lights 0 = N
    rw [hN, jsOrNat_some_zero]
  have hmain : env.costFetchOk = true →
      calculateCostToGrow batchId roomId startDate env =
        ((env.cost_entries.filter (fun e =>
            (e.batch_id = some batchId ∨ e.room_id = some roomId) ∧
              startDate ≤ e.date ∧ e.date ≤ ⌊env.now⌋)).map (fun e => e.amount)).sum
          + (N : ℚ) * 2.70 * ((⌈env.now - (startDate : ℚ)⌉ : ℤ) : ℚ) := by
    intro hOk
    simp only [calculateCostToGrow, hL, hOk, if_true]
    norm_num
  refine ⟨hmain, fun hOk hEmpty => ?_, fun hBad => ?_⟩
  · rw [hmain hOk, hEmpty]
    norm_num
  · simp only [calculateCostToGrow, hBad]
    norm_num

/-- Claim C4, witness: four lights, start day 0, now day 10.5, no cost
entries: the cost is `4 × 2.70 × 11`. -/
theorem calculateCostToGrow_formula_witness :
    calculateCostToGrow "b1" "r1" 0
        ⟨[⟨"r1", "Room 1", none, some 4, "active", none⟩], [], true, 21 / 2⟩ =
      (4 : ℚ) * 2.70 * 11 := by
  have h :=
    (calculateCostToGrow_formula "b1" "r1" 0
        ⟨[⟨"r1", "Room 1", none, some 4, "active", none⟩], [], true, 21 / 2⟩
        ⟨"r1", "Room 1", none, some 4, "active", none⟩ 4 rfl rfl).2.1 rfl rfl
  rw [h]
  have hc : (⌈(21 / 2 : ℚ) - ((0 : ℤ) : ℚ)⌉ : ℤ) = 11 := by
    rw [Int.ceil_eq_iff]
    norm_num
  rw [hc]
  norm_num

/-- Claim C5: `generateBatchCode` forms the room code from the first
digit run of the room name (`"Flower Room 7"` gives `"R7"`, a name with
no digit gives `"R1"`) and appends the year and the count of existing
codes for the room matching the `R{digits}-{year}-` prefix plus one,
zero-padded to two digits: zero matches give sequence `01`, two matches
give `03`, and a failed lookup falls back to `01`. -/
theorem generateBatchCode_spec :
    (∀ (roomId : String) (year : Nat) (table : List BatchCodeRow),
      generateBatchCode "Flower Room 7" roomId year table true =
        "R7" ++ "-" ++ toString year ++ "-" ++
          padStart2 (toString
            ((table.filter (fun b => b.room_id = roomId ∧
                ("R7" ++ "-" ++ toString year ++ "-").data.isPrefixOf
                  b.batch_code.data)).length + 1))) ∧
    (∀ (roomId : String) (year : Nat),
      generateBatchCode "Flower Room 7" roomId year [] true =
        "R7" ++ "-" ++ toString year ++ "-" ++ "01") ∧
    (generateBatchCode "Flower Room 7" "r1" 2025
        [⟨"r1", "R7-2025-01"⟩, ⟨"r1", "R7-2025-02"⟩] true = "R7-2025-03") ∧
    (∀ (roomName roomId : String) (year : Nat) (table : List BatchCodeRow),
      generateBatchCode roomName roomId year table false =
        "R" ++ (firstDigitRun roomName.data).getD "1" ++ "-" ++ toString year ++ "-01") ∧
    (∀ (roomId : String) (year : Nat),
      generateBatchCode "Flower Room" roomId year [] true =
        "R1" ++ "-" ++ toString year ++ "-" ++ "01") := by
  have hd7 : firstDigitRun (String.data "Flower Room 7") = some "7" := rfl
  have hdNone : firstDigitRun (String.data "Flower Room") = none := rfl
  have hR7 : ("R" ++ "7" : String) = "R7" := rfl
  have hR1 : ("R" ++ "1" : String) = "R1" := rfl
  have hp1 : padStart2 (toString (0 + 1)) = "01" := rfl
  refine ⟨fun roomId year table => ?_, fun roomId year => ?_, ?_,
    fun roomName roomId year table => ?_, fun roomId year => ?_⟩
  · simp only [generateBatchCode, hd7, Option.getD_some, hR7, if_true]
  · simp only [generateBatchCode, hd7, Option.getD_some, hR7, if_true,
      List.filter_nil, List.length_nil, hp1]
  · rfl
  · simp only [generateBatchCode, Bool.false_eq_true, if_false]
  · simp only [generateBatchCode, hdNone, Option.getD_none, hR1, if_true,
      List.filter_nil, List.length_nil, hp1]

/-- Claim C6: the harvest summary's total weight is the sum over strains
of the three grade weights and its total revenue is the sum of the
price-weighted grades; the single strain with weights 10/5/2 and prices
20/10/5 gives total weight 17 and total revenue 260. -/
theorem calculateHarvestSummary_totals :
    (∀ (harvestData : List HarvestData) (b : Option Batch) (env : CostEnv),
      (calculateHarvestSummary harvestData b env).total_harvest_lbs =
        (harvestData.map (fun s => s.bigs_lbs + s.smalls_lbs + s.micros_lbs)).sum ∧
      (calculateHarvestSummary harvestData b env).total_revenue =
        (harvestData.map (fun s =>
          s.bigs_lbs * s.bigs_price_per_lb + s.smalls_lbs * s.smalls_price_per_lb +
            s.micros_lbs * s.micros_price_per_lb)).sum) ∧
    (calculateHarvestSummary [⟨"s", "S", 10, 5, 2, 20, 10, 5⟩] none
        ⟨[], [], true, 0⟩).total_harvest_lbs = 17 ∧
    (calculateHarvestSummary [⟨"s", "S", 10, 5, 2, 20, 10, 5⟩] none
        ⟨[], [], true, 0⟩).total_revenue = 260 := by
  refine ⟨fun harvestData b env => ⟨rfl, rfl⟩, ?_, ?_⟩ <;>
    norm_num [calculateHarvestSummary, harvestTotalWeight, harvestTotalRevenue]

/-- Claim C7: every division of the harvest-summary computation is
guarded: when the batch's lights-assigned value is unset or `0` the
per-light figures use denominator `1`; when the total weight is `0` the
per-pound figures are `0`; when the total revenue is `0` the
net-income/sales ratio is `0`. -/
theorem calculateHarvestSummary_division_guards (harvestData : List HarvestData)
    (b : Batch) (env : CostEnv) :
    ((b.lights_assigned = none ∨ b.lights_assigned = some 0) →
      (calculateHarvestSummary harvestData (some b) env).yield_per_light =
          harvestTotalWeight harvestData / 1 ∧
        (calculateHarvestSummary harvestData (some b) env).revenue_per_light =
          harvestTotalRevenue harvestData / 1) ∧
    (harvestTotalWeight harvestData = 0 →
      (calculateHarvestSummary harvestData (some b) env).cost_per_lb = 0 ∧
        (calculateHarvestSummary harvestData (some b) env).net_income_per_lb = 0) ∧
    (harvestTotalRevenue harvestData = 0 →
      (calculateHarvestSummary harvestData (some b) env).net_income_sales_ratio = 0) := by
  refine ⟨fun hLights => ?_, fun hW => ?_, fun hR => ?_⟩
  · rcases hLights with h | h <;>
      simp [calculateHarvestSummary, h, jsOrNat]
  · simp [calculateHarvestSummary, hW]
  · simp [calculateHarvestSummary, hR]

/-- Claim C7, witness: the empty harvest list on a batch with unset
lights exercises all three guards. -/
theorem calculateHarvestSummary_division_guards_witness :
    ((calculateHarvestSummary []
        (some ⟨"b1", none, none, none, 0, none, .planned, none⟩)
        ⟨[], [], true, 0⟩).yield_per_light = harvestTotalWeight [] / 1 ∧
      (calculateHarvestSummary []
        (some ⟨"b1", none, none, none, 0, none, .planned, none⟩)
        ⟨[], [], true, 0⟩).revenue_per_light = harvestTotalRevenue [] / 1) ∧
    ((calculateHarvestSummary []
        (some ⟨"b1", none, none, none, 0, none, .planned, none⟩)
        ⟨[], [], true, 0⟩).cost_per_lb = 0 ∧
      (calculateHarvestSummary []
        (some ⟨"b1", none, none, none, 0, none, .planned, none⟩)
        ⟨[], [], true, 0⟩).net_income_per_lb = 0) ∧
    (calculateHarvestSummary []
        (some ⟨"b1", none, none, none, 0, none, .planned, none⟩)
        ⟨[], [], true, 0⟩).net_income_sales_ratio = 0 :=
  ⟨(calculateHarvestSummary_division_guards [] _ _).1 (Or.inl rfl),
   (calculateHarvestSummary_division_guards [] _ _).2.1 rfl,
   (calculateHarvestSummary_division_guards [] _ _).2.2 rfl⟩

/-- Claim C8, counterexample: the claim states the lights check is
skipped when the room's capacity is null, but `validateBatchStrains`
treats a null capacity as `0`: a one-strain list with one light and
admissible percentage and no duplicate is rejected. -/
theorem validateBatchStrains_null_capacity_rejects_lights :
    validateBatchStrains [⟨"s1", "A", 1, 50⟩]
        [⟨"r1", "Room 1", none, none, "active", none⟩] "r1" = false ∧
    (([⟨"s1", "A", 1, 50⟩] : List BatchStrain).map
        (fun s => s.percentage)).sum ≤ (100.1 : ℚ) ∧
    (([⟨"s1", "A", 1, 50⟩] : List BatchStrain).map
        (fun s => s.strain_id)).Nodup := by
  refine ⟨by decide, by norm_num, by decide⟩

/-- Claim C8 (amended): when the selected room's light capacity is null
or zero, `validateBatchStrains` does not skip the lights check — it
treats the capacity as `0`, so it accepts a list iff the list is
non-empty, its total lights are `0`, and its percentage sum is at most
`100.1`; it performs no duplicate-strain check in any case. -/
theorem validateBatchStrains_null_capacity_iff (batchStrains : List BatchStrain)
    (rooms : List Room) (room_id : String) (room : Room)
    (hfind : rooms.find? (fun r => r.id = room_id) = some room)
    (hC : room.lights = none ∨ room.lights = some 0) :
    validateBatchStrains batchStrains rooms room_id = true ↔
      (batchStrains ≠ [] ∧
        (batchStrains.map (fun s => s.lights_assigned)).sum = 0 ∧
        (batchStrains.map (fun s => s.percentage)).sum ≤ (100.1 : ℚ)) := by
  have hcap : jsOrNat room.lights 0 = 0 := by
    rcases hC with h | h
    · rw [h]
      rfl
    · rw [h]
      rfl
  simp only [validateBatchStrains, hfind, hcap]
  split_ifs with h1 h2 h3
  · simp [List.length_eq_zero.mp h1]
  · simp only [false_iff]
    rintro ⟨-, hz, -⟩
    omega
  · simp only [false_iff]
    rintro ⟨-, -, hle⟩
    exact absurd h3 (not_lt.mpr hle)
  · simp only [true_iff]
    exact ⟨fun hnil => h1 (by simp [hnil]), by omega, not_lt.mp h3⟩

/-- Claim C8, witness: a zero-light strain list is accepted against a
null-capacity room when its percentage is admissible. -/
theorem validateBatchStrains_null_capacity_iff_witness :
    validateBatchStrains [⟨"s1", "A", 0, 50⟩]
        [⟨"r1", "Room 1", none, none, "active", none⟩] "r1" = true :=
  (validateBatchStrains_null_capacity_iff [⟨"s1", "A", 0, 50⟩]
      [⟨"r1", "Room 1", none, none, "active", none⟩] "r1"
      ⟨"r1", "Room 1", none, none, "active", none⟩ rfl (Or.inl rfl)).mpr
    ⟨by decide, rfl, by norm_num⟩

/-- Claim C9: `handleDeleteRoom` issues no delete for a room one of whose
loaded batches is `active`, and issues the delete (removing the room)
when none of the room's batches is `active` — the check inspects the
`has_current_batch` flag computed by `loadRooms` from the room's joined
batches. -/
theorem handleDeleteRoom_active_guard (roomsTable : List RawRoom) (id : String)
    (raw : RawRoom) (deleteOk : Bool)
    (hfind : roomsTable.find? (fun r => r.id = id) = some raw) :
    ((∃ b ∈ raw.batches, b.status = .active) →
      handleDeleteRoom (processRooms roomsTable) id deleteOk roomsTable =
        (roomsTable, false)) ∧
    ((∀ b ∈ raw.batches, b.status ≠ .active) → deleteOk = true →
      handleDeleteRoom (processRooms roomsTable) id deleteOk roomsTable =
        (roomsTable.filter (fun r => ¬r.id = id), true)) := by
  have hproc : (processRooms roomsTable).find? (fun r => r.id = id) =
      some (processRoom raw) := by
    unfold processRooms
    rw [List.find?_map]
    have hcomp : ((fun r : ProcessedRoom => decide (r.id = id)) ∘ processRoom) =
        (fun r : RawRoom => decide (r.id = id)) := rfl
    rw [hcomp, hfind]
    rfl
  constructor
  · rintro ⟨b, hb, hstat⟩
    have hsome : (raw.batches.find? (fun x => x.status = .active)).isSome = true :=
      List.find?_isSome.mpr ⟨b, hb, by simp [hstat]⟩
    simp only [handleDeleteRoom, hproc, processRoom]
    simp [hsome]
  · intro hall hok
    have hnone : raw.batches.find? (fun x => x.status = .active) = none :=
      List.find?_eq_none.mpr (fun b hb => by simp [hall b hb])
    simp only [handleDeleteRoom, hproc, processRoom]
    simp [hnone, hok]

/-- Claim C9, witness: a room whose only batch is `active` is kept; a
room whose only batch is `harvested` is deleted. -/
theorem handleDeleteRoom_active_guard_witness :
    handleDeleteRoom
        (processRooms [⟨"r1", "Room 1", none, some 4, "active", none,
          [⟨some "B1", .active, 0, none⟩]⟩]) "r1" true
        [⟨"r1", "Room 1", none, some 4, "active", none,
          [⟨some "B1", .active, 0, none⟩]⟩] =
      ([⟨"r1", "Room 1", none, some 4, "active", none,
          [⟨some "B1", .active, 0, none⟩]⟩], false) ∧
    handleDeleteRoom
        (processRooms [⟨"r2", "Room 2", none, some 4, "active", none,
          [⟨some "B2", .harvested, 0, none⟩]⟩]) "r2" true
        [⟨"r2", "Room 2", none, some 4, "active", none,
          [⟨some "B2", .harvested, 0, none⟩]⟩] =
      ([], true) := by
  constructor
  · exact (handleDeleteRoom_active_guard
        [⟨"r1", "Room 1", none, some 4, "active", none,
          [⟨some "B1", .active, 0, none⟩]⟩] "r1"
        ⟨"r1", "Room 1", none, some 4, "active", none,
          [⟨some "B1", .active, 0, none⟩]⟩ true rfl).1
      ⟨⟨some "B1", .active, 0, none⟩, List.mem_singleton.mpr rfl, rfl⟩
  · have h := (handleDeleteRoom_active_guard
        [⟨"r2", "Room 2", none, some 4, "active", none,
          [⟨some "B2", .harvested, 0, none⟩]⟩] "r2"
        ⟨"r2", "Room 2", none, some 4, "active", none,
          [⟨some "B2", .harvested, 0, none⟩]⟩ true rfl).2
      (fun b hb => by rw [List.mem_singleton.mp hb]; decide) rfl
    rw [h]
    rfl

/-- Claim C10: starting from the empty strain list, after any sequence of
add-strain and remove-strain actions the strain identifiers in the list
are pairwise distinct — `handleAddStrainToBatch` rejects a strain that
is already present before inserting. -/
theorem batchStrains_nodup_invariant (parseIntF : String → Nat)
    (parseFloatF : String → ℚ) (rooms : List Room) (strains : List Strain)
    (room_id : String) (ops : List StrainListOp) :
    ((applyStrainOps parseIntF parseFloatF rooms strains room_id ops []).map
      (fun s => s.strain_id)).Nodup := by
  suffices h : ∀ (l : List BatchStrain), (l.map (fun s => s.strain_id)).Nodup →
      ((applyStrainOps parseIntF parseFloatF rooms strains room_id ops l).map
        (fun s => s.strain_id)).Nodup by
    exact h [] (by simp)
  induction ops with
  | nil => intro l hl; simpa [applyStrainOps] using hl
  | cons op rest ih =>
    intro l hl
    have hstep := applyStrainOp_nodup parseIntF parseFloatF rooms strains room_id op l hl
    simpa [applyStrainOps, List.foldl_cons] using
      ih (applyStrainOp parseIntF parseFloatF rooms strains room_id op l) hstep

end Dashboard
